import Mathlib

/-!
Verification of the Commitlabs-Frontend request-processing middleware core:
error taxonomy and response envelope, fixed-window rate limiter, pagination /
sort / filter parsing pipeline, and the route handlers that use them.

The route handlers are embedded from the repository sources
(`src/unnamed/part_001`, `src/src/app/api/analytics/protocol/route.ts`,
`src/src/app/api/attestations/route.ts`).  The shared backend library
(`src/lib/backend/pagination.ts`, `rateLimit.ts`, `errors.ts`,
`withApiHandler.ts`) is not part of the source tree given under `src/`; those
operations are modelled from the specification, and each such definition is
marked `Modelled from the spec:` in its doc comment.

Modelling conventions: JavaScript numbers that the routes only add, compare
and divide are modelled as `Int`/`ℚ`; `NaN`-producing conversions are
modelled with `Option`; a URL query string is an association list of
(name, value) pairs; an `async` collaborator that either returns or throws is
modelled as an `Except` value passed to the handler; JavaScript's
`Array.prototype.sort` (stable per ECMAScript 2019) is modelled as a stable
insertion sort driven by the embedded comparator.
-/

deriving instance DecidableEq for Except

/-- Closed set of error kinds of the backend error taxonomy
(`src/lib/backend/errors.ts` class hierarchy, spec section 7). -/
inductive ErrorKind where
  | badRequest
  | validation
  | unauthorized
  | forbidden
  | notFound
  | conflict
  | tooManyRequests
  | internal
deriving DecidableEq, Repr

/-- HTTP status canonically carried by each error kind (spec section 7 table). -/
def ErrorKind.httpStatus : ErrorKind → Nat
  | .badRequest => 400
  | .validation => 400
  | .unauthorized => 401
  | .forbidden => 403
  | .notFound => 404
  | .conflict => 409
  | .tooManyRequests => 429
  | .internal => 500

/-- Wire code string of each error kind, as used in the failure envelope. -/
def ErrorKind.code : ErrorKind → String
  | .badRequest => "BAD_REQUEST"
  | .validation => "VALIDATION_ERROR"
  | .unauthorized => "UNAUTHORIZED"
  | .forbidden => "FORBIDDEN"
  | .notFound => "NOT_FOUND"
  | .conflict => "CONFLICT"
  | .tooManyRequests => "TOO_MANY_REQUESTS"
  | .internal => "INTERNAL_ERROR"

/-- Modelled from the spec: the `ApiError` data model (spec section 3);
`src/lib/backend/errors.ts` is not under `src/`.  An error of a recognized
kind with a human-readable message; its HTTP status is `kind.httpStatus`. -/
structure ApiError where
  kind : ErrorKind
  message : String
deriving DecidableEq, Repr

/-- Constructor of the Validation kind (`ValidationError` class). -/
def ValidationError (msg : String) : ApiError := ⟨.validation, msg⟩

/-- Constructor of the TooManyRequests kind (`TooManyRequestsError` class). -/
def TooManyRequestsError : ApiError := ⟨.tooManyRequests, "Too many requests"⟩

/-- The response envelope (spec section 3, `src/lib/backend/response.ts`
interface): exactly one of the success variant `ok` (raw data plus status) or
the failure variant `fail` (code, message, status). -/
inductive ApiResponse (α : Type) where
  | ok (data : α) (status : Nat)
  | fail (code : String) (message : String) (status : Nat)
deriving DecidableEq, Repr

/-- Whether a response is a failure envelope. -/
def ApiResponse.isFailEnvelope {α : Type} : ApiResponse α → Bool
  | .ok _ _ => false
  | .fail _ _ _ => true

/-- A value thrown by handler code: either a typed `ApiError` or any other
raw thrown value, carrying only its server-side detail string. -/
inductive Thrown where
  | api (e : ApiError)
  | other (detail : String)
deriving DecidableEq, Repr

/-- Modelled from the spec: `normalize(unknownError, fallback)` of the error
taxonomy (spec section 4.1), the `normalizeBackendError` operation of
`src/lib/backend/errors.ts`, which is not under `src/`.  Returns the
client-facing `ApiError` together with the server-side log detail: a thrown
`ApiError` of a recognized kind passes through unchanged; any other thrown
value is wrapped as an Internal error carrying the caller-supplied fallback
message, while the original detail is kept only for logging. -/
def normalizeBackendError (e : Thrown) (fallbackMessage : String) :
    ApiError × Option String :=
  match e with
  | .api err => (err, none)
  | .other detail => (⟨.internal, fallbackMessage⟩, some detail)

/-- Modelled from the spec: the RequestPipeline wrapper (spec section 4.5),
`src/lib/backend/withApiHandler.ts`, which is not under `src/`.  The
handler's outcome (a returned response, or a thrown value) is passed through
unchanged on return, and on a throw is normalized and converted into the
failure envelope; the second component is the server-side log detail. -/
def withApiHandler {α : Type} (outcome : Except Thrown (ApiResponse α))
    (fallbackMessage : String) : ApiResponse α × Option String :=
  match outcome with
  | .ok r => (r, none)
  | .error e =>
    let n := normalizeBackendError e fallbackMessage
    (.fail n.1.kind.code n.1.message n.1.kind.httpStatus, n.2)

/-- One rate-limiter bucket record (spec section 3): window start time and
admitted count within the window. -/
structure RateLimitRecord where
  windowStart : Nat
  count : Nat
deriving DecidableEq, Repr

/-- Externally supplied rate-limit configuration: max requests per window and
window duration. -/
structure RateLimitConfig where
  limit : Nat
  windowSize : Nat
deriving DecidableEq, Repr

/-- Modelled from the spec: one `checkRateLimit` step of the fixed-window
rate limiter (spec section 4.3); `src/lib/backend/rateLimit.ts` is not under
`src/`.  Given the record currently stored for the key (if any) and the
current time `t`: with no record, or with the window elapsed
(`t - windowStart ≥ windowSize`), the record is replaced by `(t, 1)` and the
call admits; otherwise the count is incremented and the call admits exactly
when `count < limit`, and with `count ≥ limit` the call is rejected without
changing the record.  Returns the decision and the new stored record. -/
def checkRateLimit (cfg : RateLimitConfig) (store : Option RateLimitRecord)
    (t : Nat) : Bool × RateLimitRecord :=
  match store with
  | none => (true, ⟨t, 1⟩)
  | some r =>
    if cfg.windowSize ≤ t - r.windowStart then (true, ⟨t, 1⟩)
    else if r.count < cfg.limit then (true, ⟨r.windowStart, r.count + 1⟩)
    else (false, r)

/-- Runs a sequence of rate-limited calls (their times, in order) for one
key, threading the stored record; returns the admit decisions and the final
record. -/
def runCalls (cfg : RateLimitConfig) :
    Option RateLimitRecord → List Nat → List Bool × Option RateLimitRecord
  | st, [] => ([], st)
  | st, t :: ts =>
    let step := checkRateLimit cfg st t
    let rest := runCalls cfg (some step.2) ts
    (step.1 :: rest.1, rest.2)

/-- Pagination parameters (spec section 3). -/
structure PaginationParams where
  page : Nat
  pageSize : Nat
deriving DecidableEq, Repr

/-- Derived offset `(page - 1) * pageSize` (spec section 3). -/
def PaginationParams.offset (p : PaginationParams) : Nat :=
  (p.page - 1) * p.pageSize

/-- One page of results (spec section 3). -/
structure PagedResult (α : Type) where
  items : List α
  page : Nat
  pageSize : Nat
  total : Nat
  totalPages : Nat
deriving DecidableEq, Repr

/-- Modelled from the spec: `paginate(items, params)` / `paginateArray`
(spec sections 3 and 4.4); `src/lib/backend/pagination.ts` is not under
`src/`.  The deterministic slice `items[offset : offset + pageSize]` of the
(unmutated) input, with `total` the input length and
`totalPages = ceil(total / pageSize)`, computed as
`(total + pageSize - 1) / pageSize` in integer division. -/
def paginateArray {α : Type} (items : List α) (p : PaginationParams) :
    PagedResult α :=
  { items := (items.drop p.offset).take p.pageSize
    page := p.page
    pageSize := p.pageSize
    total := items.length
    totalPages := (items.length + p.pageSize - 1) / p.pageSize }

/-- First value bound to `name` in a query string, if any. -/
def lookupParam (q : List (String × String)) (name : String) : Option String :=
  match q with
  | [] => none
  | (k, v) :: rest => if k = name then some v else lookupParam rest name

/-- Modelled from the spec: the typed pagination parse failure raised by
`parsePaginationParams` — the dedicated `PaginationParseError` class that the
routes import from `src/lib/backend/pagination.ts` (not under `src/`).
`param` names the offending query parameter; the error is of the Validation
kind (spec sections 4.4 and 7). -/
structure PaginationParseError where
  param : String
  message : String
deriving DecidableEq, Repr

/-- Modelled from the spec: `paginationErrorResponse` of
`src/lib/backend/pagination.ts` (not under `src/`), converting a
`PaginationParseError` into the Validation failure envelope (HTTP 400). -/
def paginationErrorResponse {α : Type} (e : PaginationParseError) :
    ApiResponse α :=
  .fail ErrorKind.validation.code e.message ErrorKind.validation.httpStatus

/-- Decimal digit parser: accumulates the value of a digit sequence, or
`none` on the first non-digit character. -/
def parseNatDigits : List Char → Nat → Option Nat
  | [], acc => some acc
  | c :: rest, acc =>
    if c.isDigit then parseNatDigits rest (acc * 10 + (c.toNat - 48))
    else none

/-- Parse of a present query parameter value as a positive integer: a
non-empty all-digit string with value at least 1; anything else is rejected
(present-but-invalid is never silently defaulted). -/
def parsePositiveInt (s : String) : Option Nat :=
  match s.data with
  | [] => none
  | l =>
    match parseNatDigits l 0 with
    | none => none
    | some n => if 1 ≤ n then some n else none

/-- Helper of `parsePaginationParams`: resolves the `pageSize` parameter once
the page number is known. -/
def parsePageSizeParam (q : List (String × String)) (defaultPageSize : Nat)
    (maxPageSize : Option Nat) (page : Nat) :
    Except PaginationParseError PaginationParams :=
  match lookupParam q "pageSize" with
  | none => .ok ⟨page, defaultPageSize⟩
  | some s =>
    match parsePositiveInt s with
    | none => .error ⟨"pageSize", "pageSize must be a positive integer"⟩
    | some n =>
      match maxPageSize with
      | none => .ok ⟨page, n⟩
      | some cap =>
        if n ≤ cap then .ok ⟨page, n⟩
        else .error ⟨"pageSize", "pageSize exceeds the maximum page size"⟩

/-- Modelled from the spec: `parsePagination(query, {defaultPageSize,
maxPageSize})` (spec section 4.4); `src/lib/backend/pagination.ts` is not
under `src/`.  Reads `page` and `pageSize`; absent parameters default to
`page = 1` and `pageSize = defaultPageSize`; a present value that is not a
positive integer, or a `pageSize` above the cap when one is supplied, fails
with a `PaginationParseError` naming the offending parameter. -/
def parsePaginationParams (q : List (String × String)) (defaultPageSize : Nat)
    (maxPageSize : Option Nat) : Except PaginationParseError PaginationParams :=
  match lookupParam q "page" with
  | none => parsePageSizeParam q defaultPageSize maxPageSize 1
  | some s =>
    match parsePositiveInt s with
    | none => .error ⟨"page", "page must be a positive integer"⟩
    | some n => parsePageSizeParam q defaultPageSize maxPageSize n

/-- Allowed sort fields of the commitments route
(`src/unnamed/part_001` line 56). -/
inductive SortField where
  | amount
  | complianceScore
  | daysRemaining
  | createdAt
deriving DecidableEq, Repr

/-- Sort direction. -/
inductive SortOrder where
  | asc
  | desc
deriving DecidableEq, Repr

/-- Decodes a `sortBy` query value against the commitments allow-list. -/
def sortFieldOfString (s : String) : Option SortField :=
  if s = "amount" then some .amount
  else if s = "complianceScore" then some .complianceScore
  else if s = "daysRemaining" then some .daysRemaining
  else if s = "createdAt" then some .createdAt
  else none

/-- Modelled from the spec: `parseSort(query, allowedFields, defaultField,
defaultOrder)` (spec section 4.4), specialized to the commitments route
allow-list; `src/lib/backend/pagination.ts` is not under `src/`.  Absent
parameters default; a `sortBy` outside the allow-list or a `sortOrder` other
than `asc`/`desc` fails with a Validation error. -/
def parseSortParams (q : List (String × String)) (defaultField : SortField)
    (defaultOrder : SortOrder) : Except ApiError (SortField × SortOrder) :=
  match (match lookupParam q "sortBy" with
         | none => Except.ok defaultField
         | some s =>
           match sortFieldOfString s with
           | some f => Except.ok f
           | none => Except.error (ValidationError "sortBy must be one of the allowed fields")) with
  | .error e => .error e
  | .ok f =>
    match lookupParam q "sortOrder" with
    | none => .ok (f, defaultOrder)
    | some s =>
      if s = "asc" then .ok (f, .asc)
      else if s = "desc" then .ok (f, .desc)
      else .error (ValidationError "sortOrder must be asc or desc")

/-- Modelled from the spec: `parseEnumFilter(query, paramName, allowedValues)`
(spec section 4.4); `src/lib/backend/pagination.ts` is not under `src/`.
An absent parameter yields no filter (`none`, not an error); a present value
outside the allow-list raises a Validation error; a present allowed value is
returned as the filter. -/
def parseEnumFilter (q : List (String × String)) (name : String)
    (allowed : List String) : Except ApiError (Option String) :=
  match lookupParam q name with
  | none => .ok none
  | some v =>
    if v ∈ allowed then .ok (some v)
    else .error (ValidationError (name ++ " must be one of the allowed values"))

/-- A commitment row as served by the commitments route (`Commitment` of
`src/lib/types/domain`, with the fields the route reads; JavaScript numbers
are modelled as integers, which covers all values the route handles). -/
structure Commitment where
  id : String
  type : String
  status : String
  asset : String
  amount : String
  complianceScore : Int
  daysRemaining : Int
  createdAt : String
deriving DecidableEq, Repr, Inhabited

/-- Model of JavaScript `String.prototype.localeCompare`: the sign of the
lexicographic comparison of the two strings (the route runs without a locale
argument; the model uses code-point order). -/
def localeCompare (a b : String) : Int :=
  match compare a b with
  | .lt => -1
  | .eq => 0
  | .gt => 1

/-- The comparator of the commitments GET sort (`src/unnamed/part_001`
lines 107-125): string-valued fields (`amount`, `createdAt`) compare via
`localeCompare`, numeric fields by the sign of their difference; `desc`
swaps the operands exactly as the source does.  The source's `|| ''` and
`|| 0` defaults for optional fields are identities here because the model's
fields are total. -/
def cmpField (f : SortField) (ord : SortOrder) (a b : Commitment) : Int :=
  match f, ord with
  | .amount, .asc => localeCompare a.amount b.amount
  | .amount, .desc => localeCompare b.amount a.amount
  | .createdAt, .asc => localeCompare a.createdAt b.createdAt
  | .createdAt, .desc => localeCompare b.createdAt a.createdAt
  | .complianceScore, .asc => a.complianceScore - b.complianceScore
  | .complianceScore, .desc => b.complianceScore - a.complianceScore
  | .daysRemaining, .asc => a.daysRemaining - b.daysRemaining
  | .daysRemaining, .desc => b.daysRemaining - a.daysRemaining

/-- The route's `[...results].sort(comparator)` (`src/unnamed/part_001`
line 107): `Array.prototype.sort` is stable (ECMAScript 2019) and orders the
copied array by the comparator, modelled as insertion sort under
`comparator ≤ 0`. -/
def jsSortBy (f : SortField) (ord : SortOrder) (l : List Commitment) :
    List Commitment :=
  l.insertionSort (fun a b => cmpField f ord a b ≤ 0)

/-- The mock data set of the commitments route (`src/unnamed/part_001`
lines 61-70). -/
def MOCK_COMMITMENTS : List Commitment :=
  [ ⟨"CMT-ABC123", "Safe", "Active", "XLM", "50000", 95, 15, "2026-01-10T00:00:00Z"⟩,
    ⟨"CMT-XYZ789", "Balanced", "Active", "USDC", "100000", 88, 42, "2025-12-15T00:00:00Z"⟩,
    ⟨"CMT-DEF456", "Aggressive", "Active", "XLM", "250000", 76, 75, "2025-11-20T00:00:00Z"⟩,
    ⟨"CMT-GHI012", "Safe", "Settled", "XLM", "75000", 97, 0, "2025-12-01T00:00:00Z"⟩,
    ⟨"CMT-JKL345", "Balanced", "Early Exit", "USDC", "150000", 72, 0, "2025-11-01T00:00:00Z"⟩,
    ⟨"CMT-MNO678", "Aggressive", "Violated", "XLM", "200000", 45, 0, "2025-10-15T00:00:00Z"⟩,
    ⟨"CMT-PQR901", "Safe", "Active", "XLM", "30000", 92, 20, "2026-01-20T00:00:00Z"⟩,
    ⟨"CMT-STU234", "Balanced", "Active", "USDC", "80000", 85, 33, "2026-01-05T00:00:00Z"⟩ ]

/-- Client identifier resolution of the rate-limited routes
(`src/unnamed/part_001` lines 12, 88 and 148,
`src/src/app/api/attestations/route.ts` lines 95 and 122):
`req.ip ?? req.headers.get('x-forwarded-for') ?? 'anonymous'`. -/
def resolveClientId (ip forwardedFor : Option String) : String :=
  match ip with
  | some v => v
  | none =>
    match forwardedFor with
    | some v => v
    | none => "anonymous"

/-- The filtered result set of the commitments GET
(`src/unnamed/part_001` lines 103-105): the mock data, filtered by the
optional type and status filters in that order. -/
def filteredCommitments (typeFilter statusFilter : Option String) :
    List Commitment :=
  let r1 := match typeFilter with
            | some t => MOCK_COMMITMENTS.filter (fun c => c.type = t)
            | none => MOCK_COMMITMENTS
  match statusFilter with
  | some s => r1.filter (fun c => c.status = s)
  | none => r1

/-- The commitments GET handler body (`src/unnamed/part_001` lines 87-133),
embedded over the rate-limit decision and the parsed query string.  Mirrors
the source control flow: a rate-limit rejection throws `TooManyRequestsError`
(outside the try block); a `PaginationParseError` is caught by the handler
itself and returned as `paginationErrorResponse`; any other error raised by
the parsers is rethrown to the `withApiHandler` wrapper; otherwise the mock
data is filtered, sorted as a copy, paginated and returned with status 200. -/
def commitmentsGET (rateLimitAllowed : Bool) (q : List (String × String)) :
    Except Thrown (ApiResponse (PagedResult Commitment)) :=
  if !rateLimitAllowed then .error (.api TooManyRequestsError)
  else
    match parsePaginationParams q 10 none with
    | .error e => .ok (paginationErrorResponse e)
    | .ok pagination =>
      match parseSortParams q .createdAt .desc with
      | .error e => .error (.api e)
      | .ok (sortBy, sortOrder) =>
        match parseEnumFilter q "type" ["Safe", "Balanced", "Aggressive"] with
        | .error e => .error (.api e)
        | .ok typeFilter =>
          match parseEnumFilter q "status" ["Active", "Settled", "Violated", "Early Exit"] with
          | .error e => .error (.api e)
          | .ok statusFilter =>
            let sorted := jsSortBy sortBy sortOrder
              (filteredCommitments typeFilter statusFilter)
            .ok (.ok (paginateArray sorted pagination) 200)

/-- A chain commitment as consumed by the protocol analytics route
(`ChainCommitment` of `src/lib/backend/services/contracts`, with the fields
the route reads).  `amount` and `feeEarned` model the JavaScript
`Number(...)` view of the on-chain numeric strings: `some q` when finite,
`none` when the conversion yields `NaN`/infinity. -/
structure ChainCommitment where
  status : String
  amount : Option ℚ
  feeEarned : Option ℚ
  complianceScore : ℚ
deriving DecidableEq, Repr

/-- The two numeric string fields `sumNumericStringField` can aggregate. -/
inductive NumericField where
  | amount
  | feeEarned
deriving DecidableEq, Repr

/-- Field access for `sumNumericStringField`. -/
def ChainCommitment.numField (c : ChainCommitment) : NumericField → Option ℚ
  | .amount => c.amount
  | .feeEarned => c.feeEarned

/-- Model of JavaScript `Number.prototype.toFixed(2)` on a finite value:
round `|q| * 100` to the nearest integer (ties up), then print with two
decimal digits and the sign. -/
def toFixed2 (q : ℚ) : String :=
  let n : Int := ⌊|q| * 100 + 1 / 2⌋
  let sign := if q < 0 ∧ n ≠ 0 then "-" else ""
  let frac := (n % 100).toNat
  let fracStr := if frac < 10 then "0" ++ toString frac else toString frac
  sign ++ toString (n / 100) ++ "." ++ fracStr

/-- Rounding to two decimals as a number: the model of
`Number(x.toFixed(2))` on a finite value. -/
def roundTo2 (q : ℚ) : ℚ :=
  (if q < 0 then -1 else 1) * (⌊|q| * 100 + 1 / 2⌋ : ℚ) / 100

/-- JavaScript division where `0 / 0` — the only case the analytics guard
protects against — yields `NaN`, modelled as `none`. -/
def jsDiv (a b : ℚ) : Option ℚ :=
  if b = 0 then none else some (a / b)

/-- `sumNumericStringField` of
`src/src/app/api/analytics/protocol/route.ts` lines 31-41: sums the finite
numeric values of the field, skipping non-finite conversions, and formats the
total with `toFixed(2)`. -/
def sumNumericStringField (commitments : List ChainCommitment)
    (field : NumericField) : String :=
  toFixed2 (commitments.foldl
    (fun acc c => match c.numField field with
                  | some v => acc + v
                  | none => acc) 0)

/-- The protocol analytics payload
(`src/src/app/api/analytics/protocol/route.ts` lines 17-26).
`averageComplianceScore` is `none` exactly when the JavaScript computation
would be `NaN`. -/
structure ProtocolAnalyticsResponse where
  totalCommitments : Nat
  activeCommitments : Nat
  violatedCommitments : Nat
  settledCommitments : Nat
  totalValueCommitted : String
  averageDurationDays : ℚ
  averageComplianceScore : Option ℚ
  timestamp : String
deriving DecidableEq, Repr

/-- `buildProtocolAnalytics` of
`src/src/app/api/analytics/protocol/route.ts` lines 49-86: status counts,
summed value, the ternary-guarded average compliance score
(`totalCommitments === 0 ? 0 : sum / total`, then rounded to two decimals)
and the hard-coded `averageDurationDays = 0`; `now` stands for
`new Date().toISOString()`. -/
def buildProtocolAnalytics (commitments : List ChainCommitment)
    (now : String) : ProtocolAnalyticsResponse :=
  let totalCommitments := commitments.length
  let avg : Option ℚ :=
    if totalCommitments = 0 then some 0
    else jsDiv (commitments.foldl (fun acc c => acc + c.complianceScore) 0)
      (totalCommitments : ℚ)
  { totalCommitments := totalCommitments
    activeCommitments := (commitments.filter (fun c => c.status = "ACTIVE")).length
    violatedCommitments := (commitments.filter (fun c => c.status = "VIOLATED")).length
    settledCommitments := (commitments.filter (fun c => c.status = "SETTLED")).length
    totalValueCommitted := sumNumericStringField commitments .amount
    averageDurationDays := 0
    averageComplianceScore := avg.map roundTo2
    timestamp := now }

/-- `getAllCommitmentsFromChain` of
`src/src/app/api/analytics/protocol/route.ts` lines 96-103: the chain-wide
query is stubbed and always returns the empty list. -/
def getAllCommitmentsFromChain : List ChainCommitment := []

/-- The protocol analytics GET handler
(`src/src/app/api/analytics/protocol/route.ts` lines 105-130).  Unlike the
other routes it is not wrapped in `withApiHandler`: it builds its failure
envelopes itself — the feature-flag 404 before the try block, and in its own
catch block the failure envelope of the normalized error.  `chainResult` is
the outcome of awaiting the external collaborator, `now` the clock; the
second component is the server-side log detail. -/
def analyticsGET (featureEnabled : Bool)
    (chainResult : Except Thrown (List ChainCommitment)) (now : String) :
    ApiResponse ProtocolAnalyticsResponse × Option String :=
  if !featureEnabled then
    (.fail "NOT_FOUND" "Protocol analytics endpoint is disabled." 404, none)
  else
    match chainResult with
    | .ok commitments => (.ok (buildProtocolAnalytics commitments now) 200, none)
    | .error e =>
      let n := normalizeBackendError e "Failed to compute protocol analytics."
      (.fail n.1.kind.code n.1.message n.1.kind.httpStatus, n.2)

/-! Helper lemmas. -/

/-- Integer ceiling division `(a + b - 1) / b` on naturals agrees with the
mathematical ceiling of the rational `a / b`. -/
theorem natCeilDiv_cast (a b : ℕ) (hb : 0 < b) :
    (((a + b - 1) / b : ℕ) : ℤ) = ⌈(a : ℚ) / (b : ℚ)⌉ := by
  have hbq : (0 : ℚ) < (b : ℚ) := by exact_mod_cast hb
  have h1 : ((a + b - 1) / b) * b ≤ a + b - 1 := Nat.div_mul_le_self _ _
  have h2 : a + b - 1 < ((a + b - 1) / b + 1) * b :=
    (Nat.div_lt_iff_lt_mul hb).mp (Nat.lt_succ_self _)
  have h2b : a + b - 1 < ((a + b - 1) / b) * b + b := by
    rw [Nat.succ_mul] at h2
    exact h2
  have key : a ≤ ((a + b - 1) / b) * b ∧ ((a + b - 1) / b) * b < a + b := by
    set m := ((a + b - 1) / b) * b with hm
    omega
  symm
  rw [Int.ceil_eq_iff]
  constructor
  · rw [lt_div_iff₀ hbq]
    have hZ1 : (((a + b - 1) / b : ℕ) : ℤ) * b < a + b := by
      exact_mod_cast key.2
    have hZ2 : ((((a + b - 1) / b : ℕ) : ℤ) - 1) * b < a := by
      have hb1 : (1 : ℤ) ≤ b := by exact_mod_cast hb
      nlinarith [hZ1]
    exact_mod_cast hZ2
  · rw [div_le_iff₀ hbq]
    have hZ2 : (a : ℤ) ≤ (((a + b - 1) / b : ℕ) : ℤ) * b := by
      exact_mod_cast key.1
    exact_mod_cast hZ2

/-- In-window behaviour of a run of calls: starting from a stored record
`(t0, k)` with `k ≤ limit`, a sequence of calls whose times all lie inside
the window admits until the count reaches the limit and rejects afterwards,
leaving the window start unchanged and the count clamped at the limit. -/
theorem runCalls_inWindow (cfg : RateLimitConfig) (t0 : ℕ) :
    ∀ (ts : List ℕ) (k : ℕ), k ≤ cfg.limit →
      (∀ u ∈ ts, u - t0 < cfg.windowSize) →
      runCalls cfg (some ⟨t0, k⟩) ts =
        (List.replicate (min ts.length (cfg.limit - k)) true ++
           List.replicate (ts.length - (cfg.limit - k)) false,
         some ⟨t0, min (k + ts.length) cfg.limit⟩)
  | [], k, hk, _ => by
    simp [runCalls, Nat.min_eq_left hk]
  | u :: rest, k, hk, hin => by
    have hu : u - t0 < cfg.windowSize := hin u (List.mem_cons_self u rest)
    have hrest : ∀ v ∈ rest, v - t0 < cfg.windowSize :=
      fun v hv => hin v (List.mem_cons_of_mem u hv)
    by_cases hkN : k < cfg.limit
    · have step : checkRateLimit cfg (some ⟨t0, k⟩) u = (true, ⟨t0, k + 1⟩) := by
        simp [checkRateLimit, Nat.not_le.mpr hu, hkN]
      have ih := runCalls_inWindow cfg t0 rest (k + 1) hkN hrest
      have e1 : min (u :: rest).length (cfg.limit - k) =
          min rest.length (cfg.limit - (k + 1)) + 1 := by
        simp only [List.length_cons]
        omega
      have e2 : (u :: rest).length - (cfg.limit - k) =
          rest.length - (cfg.limit - (k + 1)) := by
        simp only [List.length_cons]
        omega
      have e3 : min (k + (u :: rest).length) cfg.limit =
          min ((k + 1) + rest.length) cfg.limit := by
        simp only [List.length_cons]
        omega
      simp only [runCalls, step, ih, e1, e2, e3, List.replicate_succ,
        List.cons_append]
    · have hkeq : k = cfg.limit := by omega
      have step : checkRateLimit cfg (some ⟨t0, k⟩) u = (false, ⟨t0, k⟩) := by
        simp [checkRateLimit, Nat.not_le.mpr hu, hkN]
      have ih := runCalls_inWindow cfg t0 rest k hk hrest
      have e1 : cfg.limit - k = 0 := by omega
      have m1 : min (k + rest.length) cfg.limit = cfg.limit := by omega
      have m3 : min (k + (rest.length + 1)) cfg.limit = cfg.limit := by omega
      simp only [runCalls, step, ih, e1, m1, m3, Nat.min_zero, Nat.sub_zero,
        List.replicate_zero, List.nil_append, List.length_cons,
        List.replicate_succ]

/-- C1: for every item sequence and every valid `PaginationParams`
(`page ≥ 1`, `pageSize ≥ 1`) with `page · pageSize ≤ total + pageSize`,
`paginateArray` returns a `PagedResult` whose `items` has length
`min(pageSize, max(0, total - offset))` — in particular 0 when
`offset ≥ total`, where `offset = (page - 1) * pageSize` — and whose
`totalPages` equals `ceil(total / pageSize)`. -/
theorem paginateArray_items_length_totalPages {α : Type} (items : List α)
    (p : PaginationParams) (hpage : 1 ≤ p.page) (hsize : 1 ≤ p.pageSize)
    (hbound : p.page * p.pageSize ≤ items.length + p.pageSize) :
    (((paginateArray items p).items.length : ℤ) =
        min (p.pageSize : ℤ) (max 0 ((items.length : ℤ) - (p.offset : ℤ))))
    ∧ (items.length ≤ p.offset → (paginateArray items p).items.length = 0)
    ∧ (((paginateArray items p).totalPages : ℤ) =
        ⌈(items.length : ℚ) / (p.pageSize : ℚ)⌉) := by
  refine ⟨?_, ?_, ?_⟩
  · simp only [paginateArray, List.length_take, List.length_drop]
    omega
  · intro hoff
    simp only [paginateArray, List.length_take, List.length_drop]
    omega
  · simp only [paginateArray]
    exact natCeilDiv_cast items.length p.pageSize (by omega)

/-- Witness of `paginateArray_items_length_totalPages` at the spec's own
scenario: 8 items, page 2, page size 5 — three items on the page and two
total pages. -/
theorem paginateArray_items_length_totalPages_inst :
    (1 ≤ (2 : ℕ) ∧ 1 ≤ (5 : ℕ) ∧ 2 * 5 ≤ (List.range 8).length + 5)
    ∧ ((((paginateArray (List.range 8) ⟨2, 5⟩).items.length : ℤ) =
          min ((5 : ℕ) : ℤ) (max 0 (((List.range 8).length : ℤ) -
            ((PaginationParams.offset ⟨2, 5⟩ : ℕ) : ℤ))))
        ∧ ((List.range 8).length ≤ PaginationParams.offset ⟨2, 5⟩ →
            (paginateArray (List.range 8) ⟨2, 5⟩).items.length = 0)
        ∧ (((paginateArray (List.range 8) ⟨2, 5⟩).totalPages : ℤ) =
            ⌈(((List.range 8).length : ℕ) : ℚ) / ((5 : ℕ) : ℚ)⌉)) :=
  ⟨⟨by decide, by decide, by decide⟩,
    paginateArray_items_length_totalPages (List.range 8) ⟨2, 5⟩
      (by decide) (by decide) (by decide)⟩

/-- C2: for every rate-limit key, with `limit = N` and `windowSize = W`: with
no stored record, or with the window elapsed (`t - windowStart ≥ W`),
`checkRateLimit` replaces the record with `(windowStart = t, count = 1)` and
admits; otherwise it admits and increments the count exactly when
`count < N`, and rejects without changing the record when `count ≥ N`.  In
particular the first `N` calls within one window admit, the `(N+1)`-th
rejects, and a call after the window elapses admits with the count reset
to 1. -/
theorem checkRateLimit_fixed_window (cfg : RateLimitConfig) (t : ℕ)
    (r : RateLimitRecord) (hN : 1 ≤ cfg.limit) (hW : 1 ≤ cfg.windowSize) :
    (checkRateLimit cfg none t = (true, ⟨t, 1⟩))
    ∧ (cfg.windowSize ≤ t - r.windowStart →
        checkRateLimit cfg (some r) t = (true, ⟨t, 1⟩))
    ∧ (t - r.windowStart < cfg.windowSize → r.count < cfg.limit →
        checkRateLimit cfg (some r) t = (true, ⟨r.windowStart, r.count + 1⟩))
    ∧ (t - r.windowStart < cfg.windowSize → cfg.limit ≤ r.count →
        checkRateLimit cfg (some r) t = (false, r))
    ∧ (∀ (t0 : ℕ) (ts : List ℕ), (∀ u ∈ ts, u - t0 < cfg.windowSize) →
        ts.length = cfg.limit →
        (runCalls cfg none (t0 :: ts)).1 =
          List.replicate cfg.limit true ++ [false]) := by
  refine ⟨rfl, ?_, ?_, ?_, ?_⟩
  · intro h
    simp [checkRateLimit, h]
  · intro h1 h2
    simp [checkRateLimit, Nat.not_le.mpr h1, h2]
  · intro h1 h2
    simp [checkRateLimit, Nat.not_le.mpr h1, Nat.not_lt.mpr h2]
  · intro t0 ts hin hlen
    obtain ⟨m, hm⟩ : ∃ m, cfg.limit = m + 1 := ⟨cfg.limit - 1, by omega⟩
    have step : checkRateLimit cfg none t0 = (true, ⟨t0, 1⟩) := rfl
    have hrun := runCalls_inWindow cfg t0 ts 1 hN hin
    have e1 : min ts.length (cfg.limit - 1) = m := by omega
    have e2 : ts.length - (cfg.limit - 1) = 1 := by omega
    simp only [runCalls, step, hrun]
    rw [e1, e2, hm]
    simp [List.replicate_succ, List.replicate_one]

/-- Witness of `checkRateLimit_fixed_window` at the spec's own scenario:
`limit = 2`, `windowSize = 60`; instantiating the in-window run at calls at
times 0, 1, 2 gives admit, admit, reject, and a call at time 61 on the
stored record admits again with the count reset to 1. -/
theorem checkRateLimit_fixed_window_inst :
    (1 ≤ (2 : ℕ) ∧ 1 ≤ (60 : ℕ))
    ∧ (runCalls ⟨2, 60⟩ none (0 :: [1, 2])).1 = List.replicate 2 true ++ [false]
    ∧ checkRateLimit ⟨2, 60⟩ (some ⟨0, 1⟩) 61 = (true, ⟨61, 1⟩) :=
  ⟨⟨by decide, by decide⟩,
    (checkRateLimit_fixed_window ⟨2, 60⟩ 61 ⟨0, 1⟩ (by decide)
      (by decide)).2.2.2.2 0 [1, 2] (by decide) (by decide),
    (checkRateLimit_fixed_window ⟨2, 60⟩ 61 ⟨0, 1⟩ (by decide)
      (by decide)).2.1 (by decide)⟩

/-- Two entries read at increasing positions of a list form a two-element
sublist of it, in that order. -/
theorem pair_sublist_of_getElem {β : Type} (L : List β) (i j : ℕ) (x y : β)
    (hij : i < j) (hx : L[i]? = some x) (hy : L[j]? = some y) :
    List.Sublist [x, y] L := by
  have h1 : List.Sublist [x] (L.take (i + 1)) := by
    apply List.singleton_sublist.mpr
    have hm : (L.take (i + 1))[i]? = some x := by
      rw [List.getElem?_take, if_pos (Nat.lt_succ_self i)]
      exact hx
    rw [List.getElem?_eq_some] at hm
    obtain ⟨hi, he⟩ := hm
    exact he ▸ List.getElem_mem hi
  have h2 : List.Sublist [y] (L.drop (i + 1)) := by
    apply List.singleton_sublist.mpr
    have hm : (L.drop (i + 1))[j - (i + 1)]? = some y := by
      rw [List.getElem?_drop]
      have e : i + 1 + (j - (i + 1)) = j := by omega
      rw [e]
      exact hy
    rw [List.getElem?_eq_some] at hm
    obtain ⟨hi, he⟩ := hm
    exact he ▸ List.getElem_mem hi
  have h3 := List.Sublist.append h1 h2
  rw [List.take_append_drop] at h3
  exact h3

/-- The enumeration carries each entry, paired with its own index, at the
entry's position. -/
theorem enum_getElem_pair {β : Type} (l : List β) (i : ℕ) (a : β)
    (h : l[i]? = some a) : l.enum[i]? = some (i, a) := by
  rw [List.getElem?_eq_some] at h ⊢
  obtain ⟨hi, he⟩ := h
  have hi2 : i < l.enum.length := by simpa [List.enum_length] using hi
  exact ⟨hi2, by rw [List.getElem_enum]; simp [he]⟩

/-- C3 counterexample: failure signalling is not exclusively by raising an
`ApiError` through the `withApiHandler` wrapper.  At concrete requests: the
protocol analytics GET — which is not wrapped in `withApiHandler` — catches
the collaborator's thrown error itself and manually builds the Internal
failure envelope (keeping the detail only in the log component), manually
builds its feature-disabled NOT_FOUND failure envelope, and the commitments
GET catches `PaginationParseError` itself and returns (rather than throws)
the pagination failure envelope.  So handlers do catch exceptions and do
construct failure responses, and the pipeline wrapper is not the only catch
point. -/
theorem handlers_construct_failure_envelopes :
    ((analyticsGET true (.error (.other "boom")) "2026-02-03T00:00:00Z").1 =
        .fail "INTERNAL_ERROR" "Failed to compute protocol analytics." 500
      ∧ (analyticsGET true (.error (.other "boom")) "2026-02-03T00:00:00Z").2 =
        some "boom")
    ∧ (analyticsGET false (.ok []) "2026-02-03T00:00:00Z").1 =
        .fail "NOT_FOUND" "Protocol analytics endpoint is disabled." 404
    ∧ commitmentsGET true [("page", "0")] =
        .ok (paginationErrorResponse ⟨"page", "page must be a positive integer"⟩) :=
  ⟨⟨rfl, rfl⟩, rfl, rfl⟩

/-- C3 amended: handlers wrapped in `withApiHandler` signal failure by
raising an `ApiError`, which the wrapper alone converts into the failure
envelope — a returned response passes through unchanged, and a rate-limit
rejection is thrown as `TooManyRequestsError` — except that the paginated
GET handlers catch `PaginationParseError` themselves and return the
pagination failure envelope directly; and the protocol analytics GET is not
wrapped at all: it handles every failure itself, producing a failure
envelope exactly when the feature flag is off or the collaborator throws. -/
theorem error_propagation_boundaries :
    (∀ (r : ApiResponse (PagedResult Commitment)) (fb : String),
        withApiHandler (Except.ok r) fb = (r, none))
    ∧ (∀ (e : Thrown) (fb : String),
        (withApiHandler (Except.error e : Except Thrown (ApiResponse (PagedResult Commitment))) fb).1 =
          ApiResponse.fail (normalizeBackendError e fb).1.kind.code
            (normalizeBackendError e fb).1.message
            (normalizeBackendError e fb).1.kind.httpStatus)
    ∧ (∀ (q : List (String × String)),
        commitmentsGET false q = Except.error (Thrown.api TooManyRequestsError))
    ∧ (∀ (q : List (String × String)) (pr : PaginationParseError),
        parsePaginationParams q 10 none = Except.error pr →
        commitmentsGET true q = Except.ok (paginationErrorResponse pr))
    ∧ (∀ (fe : Bool) (cr : Except Thrown (List ChainCommitment)) (now : String),
        (analyticsGET fe cr now).1.isFailEnvelope = true ↔
          fe = false ∨ ∃ e, cr = Except.error e) := by
  refine ⟨fun r fb => rfl, fun e fb => rfl, fun q => rfl, ?_, ?_⟩
  · intro q pr h
    simp [commitmentsGET, h]
  · intro fe cr now
    cases fe
    · simp [analyticsGET, ApiResponse.isFailEnvelope]
    · cases cr with
      | ok cs => simp [analyticsGET, ApiResponse.isFailEnvelope]
      | error e => simp [analyticsGET, ApiResponse.isFailEnvelope]

/-- Witness of `error_propagation_boundaries`: at the request with
`page = "0"` the pagination parse fails naming `page`, and the commitments
GET returns the pagination failure envelope directly. -/
theorem error_propagation_boundaries_inst :
    parsePaginationParams [("page", "0")] 10 none =
        Except.error ⟨"page", "page must be a positive integer"⟩
    ∧ commitmentsGET true [("page", "0")] =
        Except.ok (paginationErrorResponse
          ⟨"page", "page must be a positive integer"⟩) :=
  ⟨rfl, error_propagation_boundaries.2.2.2.1 [("page", "0")]
    ⟨"page", "page must be a positive integer"⟩ rfl⟩

/-- C4 counterexample: stability is not engineered in the route's comparator.
The rows at positions 3 and 4 of the route's own data set (`CMT-GHI012`,
`CMT-JKL345`) are distinct items with equal `daysRemaining`, and the
comparator as written returns 0 on them in both directions and for both
orders — there is no index augmentation, so the order of ties is not
determined by the comparator; any stability is inherited from the underlying
`Array.prototype.sort` algorithm, contradicting the claim that the guarantee
is engineered explicitly rather than assumed from the sort algorithm. -/
theorem comparator_ties_not_broken :
    cmpField .daysRemaining .asc (MOCK_COMMITMENTS[3]!) (MOCK_COMMITMENTS[4]!) = 0
    ∧ cmpField .daysRemaining .asc (MOCK_COMMITMENTS[4]!) (MOCK_COMMITMENTS[3]!) = 0
    ∧ cmpField .daysRemaining .desc (MOCK_COMMITMENTS[3]!) (MOCK_COMMITMENTS[4]!) = 0
    ∧ MOCK_COMMITMENTS[3]! ≠ MOCK_COMMITMENTS[4]! :=
  ⟨rfl, rfl, rfl, by decide⟩

/-- C4 amended: for every input list, every allowed sort field and both
orders, sorting is stable — tracking items by original position, two items
that compare equal under the selected comparator keep their input order in
the sorted output.  The guarantee comes from the stability of the sort
itself (mandated for `Array.prototype.sort` by ECMAScript 2019, modelled as
a stable insertion sort), not from the comparator, which returns 0 on
ties. -/
theorem jsSortBy_stable_ties (l : List Commitment) (f : SortField)
    (ord : SortOrder) (i j : ℕ) (a b : Commitment) (hij : i < j)
    (ha : l[i]? = some a) (hb : l[j]? = some b)
    (htie : cmpField f ord a b = 0) :
    List.Sublist [(i, a), (j, b)]
      (l.enum.insertionSort (fun x y => cmpField f ord x.2 y.2 ≤ 0))
    ∧ (l.enum.insertionSort (fun x y => cmpField f ord x.2 y.2 ≤ 0)).map
        Prod.snd = jsSortBy f ord l := by
  constructor
  · exact List.pair_sublist_insertionSort (le_of_eq htie)
      (pair_sublist_of_getElem l.enum i j (i, a) (j, b) hij
        (enum_getElem_pair l i a ha) (enum_getElem_pair l j b hb))
  · rw [List.map_insertionSort (fun x y => cmpField f ord x.2 y.2 ≤ 0)
      (fun a b : Commitment => cmpField f ord a b ≤ 0) Prod.snd l.enum
      (fun x _ y _ => Iff.rfl), List.enum_map_snd]
    rfl

/-- Witness of `jsSortBy_stable_ties` on the route's own data: positions 3
and 4 tie on `daysRemaining` ascending and keep their input order in the
sorted output. -/
theorem jsSortBy_stable_ties_inst :
    (3 < (4 : ℕ))
    ∧ MOCK_COMMITMENTS[3]? = some ⟨"CMT-GHI012", "Safe", "Settled", "XLM",
        "75000", 97, 0, "2025-12-01T00:00:00Z"⟩
    ∧ MOCK_COMMITMENTS[4]? = some ⟨"CMT-JKL345", "Balanced", "Early Exit",
        "USDC", "150000", 72, 0, "2025-11-01T00:00:00Z"⟩
    ∧ cmpField .daysRemaining .asc
        ⟨"CMT-GHI012", "Safe", "Settled", "XLM", "75000", 97, 0,
          "2025-12-01T00:00:00Z"⟩
        ⟨"CMT-JKL345", "Balanced", "Early Exit", "USDC", "150000", 72, 0,
          "2025-11-01T00:00:00Z"⟩ = 0
    ∧ (List.Sublist
        [(3, ⟨"CMT-GHI012", "Safe", "Settled", "XLM", "75000", 97, 0,
            "2025-12-01T00:00:00Z"⟩),
         (4, ⟨"CMT-JKL345", "Balanced", "Early Exit", "USDC", "150000", 72, 0,
            "2025-11-01T00:00:00Z"⟩)]
        (MOCK_COMMITMENTS.enum.insertionSort
          (fun x y => cmpField .daysRemaining .asc x.2 y.2 ≤ 0))
      ∧ (MOCK_COMMITMENTS.enum.insertionSort
          (fun x y => cmpField .daysRemaining .asc x.2 y.2 ≤ 0)).map
          Prod.snd = jsSortBy .daysRemaining .asc MOCK_COMMITMENTS) :=
  ⟨by decide, by decide, by decide, by decide,
    jsSortBy_stable_ties MOCK_COMMITMENTS .daysRemaining .asc 3 4
      ⟨"CMT-GHI012", "Safe", "Settled", "XLM", "75000", 97, 0,
        "2025-12-01T00:00:00Z"⟩
      ⟨"CMT-JKL345", "Balanced", "Early Exit", "USDC", "150000", 72, 0,
        "2025-11-01T00:00:00Z"⟩
      (by decide) (by decide) (by decide) (by decide)⟩

/-- C5: `normalize(e, fallback)` passes an already-typed `ApiError` through
unchanged (with nothing logged); any other thrown value becomes an
Internal-kind error at HTTP 500 whose client-visible message is exactly the
caller-supplied fallback, while the original detail goes only to the log
component — the client-facing error is independent of the thrown detail. -/
theorem normalizeBackendError_passthrough_and_wrap :
    (∀ (e : ApiError) (fb : String),
        normalizeBackendError (Thrown.api e) fb = (e, none))
    ∧ (∀ (d fb : String),
        (normalizeBackendError (Thrown.other d) fb).1.kind = ErrorKind.internal
        ∧ (normalizeBackendError (Thrown.other d) fb).1.kind.httpStatus = 500
        ∧ (normalizeBackendError (Thrown.other d) fb).1.message = fb
        ∧ (normalizeBackendError (Thrown.other d) fb).2 = some d)
    ∧ (∀ (d d₂ fb : String),
        (normalizeBackendError (Thrown.other d) fb).1 =
          (normalizeBackendError (Thrown.other d₂) fb).1) :=
  ⟨fun e fb => rfl, fun d fb => ⟨rfl, rfl, rfl, rfl⟩, fun d d₂ fb => rfl⟩

/-- C6: `paginateArray` returns exactly the pure slice
`items[offset : offset + pageSize]` of its input — the embedding is a pure
function of the (unmutated) input list, which the route additionally copies
before sorting — sorting permutes the entire filtered result set (nothing is
dropped or added), and the commitments GET applies the sort to the whole
filtered set before slicing: the returned page is the corresponding window
of the fully sorted list. -/
theorem paginate_slices_after_full_sort :
    (∀ (α : Type) (items : List α) (p : PaginationParams),
        (paginateArray items p).items = (items.drop p.offset).take p.pageSize)
    ∧ (∀ (f : SortField) (ord : SortOrder) (l : List Commitment),
        List.Perm (jsSortBy f ord l) l)
    ∧ (∀ (q : List (String × String)) (p : PaginationParams) (f : SortField)
          (ord : SortOrder) (tf sf : Option String),
        parsePaginationParams q 10 none = Except.ok p →
        parseSortParams q SortField.createdAt SortOrder.desc =
          Except.ok (f, ord) →
        parseEnumFilter q "type" ["Safe", "Balanced", "Aggressive"] =
          Except.ok tf →
        parseEnumFilter q "status"
          ["Active", "Settled", "Violated", "Early Exit"] = Except.ok sf →
        commitmentsGET true q = Except.ok (ApiResponse.ok
            (paginateArray (jsSortBy f ord (filteredCommitments tf sf)) p) 200)
        ∧ (paginateArray (jsSortBy f ord (filteredCommitments tf sf)) p).items =
            ((jsSortBy f ord (filteredCommitments tf sf)).drop
              p.offset).take p.pageSize) := by
  refine ⟨fun α items p => rfl, fun f ord l => List.perm_insertionSort _ l, ?_⟩
  intro q p f ord tf sf h1 h2 h3 h4
  constructor
  · simp [commitmentsGET, h1, h2, h3, h4]
  · rfl

/-- Witness of `paginate_slices_after_full_sort` at a concrete query with a
page size, a sort field and a type filter. -/
theorem paginate_slices_after_full_sort_inst :
    parsePaginationParams
        [("pageSize", "5"), ("sortBy", "amount"), ("type", "Safe")] 10 none =
      Except.ok ⟨1, 5⟩
    ∧ parseSortParams
        [("pageSize", "5"), ("sortBy", "amount"), ("type", "Safe")]
        SortField.createdAt SortOrder.desc =
      Except.ok (SortField.amount, SortOrder.desc)
    ∧ parseEnumFilter
        [("pageSize", "5"), ("sortBy", "amount"), ("type", "Safe")] "type"
        ["Safe", "Balanced", "Aggressive"] = Except.ok (some "Safe")
    ∧ parseEnumFilter
        [("pageSize", "5"), ("sortBy", "amount"), ("type", "Safe")] "status"
        ["Active", "Settled", "Violated", "Early Exit"] = Except.ok none
    ∧ (commitmentsGET true
          [("pageSize", "5"), ("sortBy", "amount"), ("type", "Safe")] =
        Except.ok (ApiResponse.ok
          (paginateArray (jsSortBy SortField.amount SortOrder.desc
            (filteredCommitments (some "Safe") none)) ⟨1, 5⟩) 200)
      ∧ (paginateArray (jsSortBy SortField.amount SortOrder.desc
            (filteredCommitments (some "Safe") none)) ⟨1, 5⟩).items =
          ((jsSortBy SortField.amount SortOrder.desc
            (filteredCommitments (some "Safe") none)).drop
              (PaginationParams.offset ⟨1, 5⟩)).take 5) :=
  ⟨rfl, rfl, rfl, rfl,
    paginate_slices_after_full_sort.2.2
      [("pageSize", "5"), ("sortBy", "amount"), ("type", "Safe")] ⟨1, 5⟩
      SortField.amount SortOrder.desc (some "Safe") none rfl rfl rfl rfl⟩

/-- C7: `parseEnumFilter` returns no filter and no error when the parameter
is absent; raises a Validation-kind `ApiError` when the parameter is present
with a value outside the allow-list — never substituting a default for a
present-but-invalid value —; and returns the value as the filter when
present and allowed. -/
theorem parseEnumFilter_absent_invalid_allowed (q : List (String × String))
    (name : String) (allowed : List String) :
    (lookupParam q name = none → parseEnumFilter q name allowed = .ok none)
    ∧ (∀ v, lookupParam q name = some v → v ∉ allowed →
        parseEnumFilter q name allowed = .error
          (ValidationError (name ++ " must be one of the allowed values"))
        ∧ (ValidationError (name ++ " must be one of the allowed values")).kind
            = ErrorKind.validation
        ∧ ∀ w, parseEnumFilter q name allowed ≠ Except.ok w)
    ∧ (∀ v, lookupParam q name = some v → v ∈ allowed →
        parseEnumFilter q name allowed = .ok (some v)) := by
  refine ⟨?_, ?_, ?_⟩
  · intro h
    simp [parseEnumFilter, h]
  · intro v hv hnotin
    refine ⟨by simp [parseEnumFilter, hv, hnotin], rfl, ?_⟩
    intro w
    simp [parseEnumFilter, hv, hnotin]
  · intro v hv hin
    simp [parseEnumFilter, hv, hin]

/-- Witness of `parseEnumFilter_absent_invalid_allowed`: a present `type`
value outside the commitments allow-list is rejected with the Validation
error, not replaced by a default. -/
theorem parseEnumFilter_absent_invalid_allowed_inst :
    lookupParam [("type", "Weird")] "type" = some "Weird"
    ∧ "Weird" ∉ ["Safe", "Balanced", "Aggressive"]
    ∧ parseEnumFilter [("type", "Weird")] "type"
        ["Safe", "Balanced", "Aggressive"] = .error
          (ValidationError ("type" ++ " must be one of the allowed values")) :=
  ⟨rfl, by decide,
    ((parseEnumFilter_absent_invalid_allowed [("type", "Weird")] "type"
      ["Safe", "Balanced", "Aggressive"]).2.1 "Weird" rfl (by decide)).1⟩

/-- C8: `parsePaginationParams` defaults and validation: with both
parameters absent the result is page 1 and the caller's default page size
(in particular the empty query with `defaultPageSize = 10` gives
`{page: 1, pageSize: 10}`); a present value that is not a positive integer
fails with a parse error naming the offending parameter (in particular
`page = "0"` fails naming `page`, and that error's envelope is the
Validation failure at HTTP 400); and a present `pageSize` above a supplied
cap fails naming `pageSize`. -/
theorem parsePaginationParams_defaults_validation
    (q : List (String × String)) (dps : ℕ) (mps : Option ℕ) :
    (parsePaginationParams [] (10 : ℕ) none = Except.ok ⟨1, 10⟩)
    ∧ (parsePaginationParams [("page", "0")] dps mps =
        Except.error ⟨"page", "page must be a positive integer"⟩)
    ∧ ((paginationErrorResponse ⟨"page", "page must be a positive integer"⟩ :
          ApiResponse (PagedResult Commitment)) =
        ApiResponse.fail "VALIDATION_ERROR" "page must be a positive integer" 400)
    ∧ (lookupParam q "page" = none → lookupParam q "pageSize" = none →
        parsePaginationParams q dps mps = Except.ok ⟨1, dps⟩)
    ∧ (∀ s, lookupParam q "page" = some s → parsePositiveInt s = none →
        parsePaginationParams q dps mps =
          Except.error ⟨"page", "page must be a positive integer"⟩)
    ∧ (∀ s n cap, lookupParam q "page" = none →
        lookupParam q "pageSize" = some s → parsePositiveInt s = some n →
        mps = some cap → cap < n →
        parsePaginationParams q dps mps =
          Except.error ⟨"pageSize", "pageSize exceeds the maximum page size"⟩) := by
  refine ⟨rfl, rfl, rfl, ?_, ?_, ?_⟩
  · intro h1 h2
    simp [parsePaginationParams, parsePageSizeParam, h1, h2]
  · intro s hs hp
    simp [parsePaginationParams, hs, hp]
  · intro s n cap h1 hs hp hm hlt
    have hc : ¬ n ≤ cap := by omega
    simp [parsePaginationParams, parsePageSizeParam, h1, hs, hp, hm, hc]

/-- Witness of `parsePaginationParams_defaults_validation`: a query with
unrelated parameters takes both defaults. -/
theorem parsePaginationParams_defaults_validation_inst :
    lookupParam [("sortBy", "amount")] "page" = none
    ∧ lookupParam [("sortBy", "amount")] "pageSize" = none
    ∧ parsePaginationParams [("sortBy", "amount")] 7 (some 50) =
        Except.ok ⟨1, 7⟩ :=
  ⟨rfl, rfl,
    (parsePaginationParams_defaults_validation [("sortBy", "amount")] 7
      (some 50)).2.2.2.1 rfl rfl⟩

/-- C9: the rate-limit client identifier is resolved by a fixed priority
chain — the explicit client IP when present, otherwise the forwarded-for
header value when present, otherwise the sentinel string "anonymous" — so
every request with neither source resolves to the same shared "anonymous"
identifier per scope. -/
theorem resolveClientId_priority_chain :
    (∀ (ip : String) (fwd : Option String), resolveClientId (some ip) fwd = ip)
    ∧ (∀ fwd : String, resolveClientId none (some fwd) = fwd)
    ∧ resolveClientId none none = "anonymous" :=
  ⟨fun ip fwd => rfl, fun fwd => rfl, rfl⟩

/-- The rational floor of one half is zero. -/
theorem floor_rat_half : ⌊(1 / 2 : ℚ)⌋ = 0 := by
  rw [Int.floor_eq_iff]
  constructor <;> norm_num

/-- `toFixed(2)` of zero prints as `"0.00"`. -/
theorem toFixed2_zero : toFixed2 0 = "0.00" := by
  have h : |(0 : ℚ)| * 100 + 1 / 2 = 1 / 2 := by norm_num
  simp only [toFixed2, h, floor_rat_half]
  norm_num
  rfl

/-- Rounding zero to two decimals gives zero. -/
theorem roundTo2_zero : roundTo2 0 = 0 := by
  have h : |(0 : ℚ)| * 100 + 1 / 2 = 1 / 2 := by norm_num
  simp only [roundTo2, h, floor_rat_half]
  norm_num

/-- C10: `buildProtocolAnalytics` applied to the result of the stubbed
`getAllCommitmentsFromChain` — which always returns the empty list — yields
all counters and averages equal to 0 and `totalValueCommitted = "0.00"`;
and for every commitment list the average compliance score is never NaN
(never `none`): the division is guarded by the `totalCommitments === 0`
check. -/
theorem buildProtocolAnalytics_empty_chain (now : String) :
    getAllCommitmentsFromChain = ([] : List ChainCommitment)
    ∧ (buildProtocolAnalytics getAllCommitmentsFromChain now).totalCommitments = 0
    ∧ (buildProtocolAnalytics getAllCommitmentsFromChain now).activeCommitments = 0
    ∧ (buildProtocolAnalytics getAllCommitmentsFromChain now).violatedCommitments = 0
    ∧ (buildProtocolAnalytics getAllCommitmentsFromChain now).settledCommitments = 0
    ∧ (buildProtocolAnalytics getAllCommitmentsFromChain now).averageDurationDays = 0
    ∧ (buildProtocolAnalytics getAllCommitmentsFromChain now).averageComplianceScore
        = some 0
    ∧ (buildProtocolAnalytics getAllCommitmentsFromChain now).totalValueCommitted
        = "0.00"
    ∧ (∀ cs : List ChainCommitment,
        (buildProtocolAnalytics cs now).averageComplianceScore ≠ none) := by
  refine ⟨rfl, rfl, rfl, rfl, rfl, rfl, ?_, ?_, ?_⟩
  · show Option.map roundTo2 (some 0) = some 0
    simp [roundTo2_zero]
  · show toFixed2 0 = "0.00"
    exact toFixed2_zero
  · intro cs
    by_cases h : cs.length = 0
    · simp [buildProtocolAnalytics, h]
    · simp only [buildProtocolAnalytics, h, if_false, jsDiv]
      have hne : ((cs.length : ℚ)) ≠ 0 := by
        exact_mod_cast h
      simp [hne]

/-- Witness of `buildProtocolAnalytics_empty_chain` at a concrete clock
value. -/
theorem buildProtocolAnalytics_empty_chain_inst :
    (buildProtocolAnalytics getAllCommitmentsFromChain
        "2026-02-03T00:00:00Z").totalCommitments = 0
    ∧ (buildProtocolAnalytics getAllCommitmentsFromChain
        "2026-02-03T00:00:00Z").totalValueCommitted = "0.00" :=
  ⟨(buildProtocolAnalytics_empty_chain "2026-02-03T00:00:00Z").2.1,
    (buildProtocolAnalytics_empty_chain
      "2026-02-03T00:00:00Z").2.2.2.2.2.2.2.1⟩

/-- Witness of `resolveClientId_priority_chain` at concrete identifiers. -/
theorem resolveClientId_priority_chain_inst :
    resolveClientId (some "10.0.0.1") (some "10.9.9.9") = "10.0.0.1"
    ∧ resolveClientId none (some "10.9.9.9") = "10.9.9.9"
    ∧ resolveClientId none none = "anonymous" :=
  ⟨resolveClientId_priority_chain.1 "10.0.0.1" (some "10.9.9.9"),
    resolveClientId_priority_chain.2.1 "10.9.9.9",
    resolveClientId_priority_chain.2.2⟩

/-- Witness of `normalizeBackendError_passthrough_and_wrap` at concrete
errors: a typed error passes through, an unknown error becomes the Internal
fallback with its detail only in the log component. -/
theorem normalizeBackendError_passthrough_and_wrap_inst :
    normalizeBackendError (Thrown.api (ValidationError "bad page")) "fb" =
      (ValidationError "bad page", none)
    ∧ (normalizeBackendError (Thrown.other "stack trace") "fb").1.message = "fb"
    ∧ (normalizeBackendError (Thrown.other "stack trace") "fb").2 =
        some "stack trace" :=
  ⟨normalizeBackendError_passthrough_and_wrap.1 (ValidationError "bad page") "fb",
    (normalizeBackendError_passthrough_and_wrap.2.1 "stack trace" "fb").2.2.1,
    (normalizeBackendError_passthrough_and_wrap.2.1 "stack trace" "fb").2.2.2⟩
